import Mathlib

/-!
Shallow embedding of the flight-simulator component
(`src/components/flight-simulator.tsx`).

Numbers are modelled as real numbers.  The component state is a record of
the React `useState` cells that carry simulation logic; each event handler
and each logic-bearing `useEffect` body becomes a state-transformer, and the
whole component is a step relation generated by those operations.
-/

namespace FlightSim

/-- The `FlightParameters` interface. -/
structure FlightParameters where
  airspeed : ℝ
  angleOfAttack : ℝ
  altitude : ℝ
  throttle : ℝ
  weight : ℝ
  wingArea : ℝ
  liftCoefficient : ℝ
  dragCoefficient : ℝ

/-- The `Forces` interface. -/
structure Forces where
  lift : ℝ
  drag : ℝ
  thrust : ℝ
  weight : ℝ

/-- The `position` state cell: `{ x, y, rotation }`. -/
structure Position2D where
  x : ℝ
  y : ℝ
  rotation : ℝ

/-- The `velocity` state cell: `{ x, y, angular }`. -/
structure Velocity2D where
  x : ℝ
  y : ℝ
  angular : ℝ

/-- Keys of the `FlightParameters` record (`keyof FlightParameters`). -/
inductive ParamKey
  | airspeed
  | angleOfAttack
  | altitude
  | throttle
  | weight
  | wingArea
  | liftCoefficient
  | dragCoefficient
deriving DecidableEq

/-- Read a parameter by key: `parameters[key]`. -/
def getParam (p : FlightParameters) : ParamKey → ℝ
  | .airspeed => p.airspeed
  | .angleOfAttack => p.angleOfAttack
  | .altitude => p.altitude
  | .throttle => p.throttle
  | .weight => p.weight
  | .wingArea => p.wingArea
  | .liftCoefficient => p.liftCoefficient
  | .dragCoefficient => p.dragCoefficient

/-- Functional update of one parameter: `{ ...prev, [key]: value }`. -/
def setParam (k : ParamKey) (v : ℝ) (p : FlightParameters) : FlightParameters :=
  match k with
  | .airspeed => { p with airspeed := v }
  | .angleOfAttack => { p with angleOfAttack := v }
  | .altitude => { p with altitude := v }
  | .throttle => { p with throttle := v }
  | .weight => { p with weight := v }
  | .wingArea => { p with wingArea := v }
  | .liftCoefficient => { p with liftCoefficient := v }
  | .dragCoefficient => { p with dragCoefficient := v }

/-- Keys of the `aircraftPresets` object. -/
inductive AircraftId
  | boeing737
  | f16
  | b1
  | p51
  | hotAirBalloon
deriving DecidableEq

/-- One entry of the `aircraftPresets` object. -/
structure AircraftPreset where
  weight : ℝ
  wingArea : ℝ
  name : String
  modelPath : String

/-- The `aircraftPresets` object. -/
noncomputable def aircraftPresets : AircraftId → AircraftPreset
  | .boeing737 =>
      { weight := 41400, wingArea := 125, name := "Boeing 737-800",
        modelPath := "/3d/boeing_737_american_airlines.glb" }
  | .f16 =>
      { weight := 8900, wingArea := 27.9, name := "F-16 Falcon",
        modelPath := "/3d/f16-c_falcon.glb" }
  | .b1 =>
      { weight := 86000, wingArea := 181, name := "B-1 Lancer",
        modelPath := "/3d/b1.glb" }
  | .p51 =>
      { weight := 3465, wingArea := 21.6, name := "P-51 Mustang",
        modelPath := "/3d/p51.glb" }
  | .hotAirBalloon =>
      { weight := 800, wingArea := 500, name := "Hot Air Balloon",
        modelPath := "/3d/hot_air_balloon.glb" }

/-- One entry of the `tutorialSteps` array (logic-bearing fields:
`id`, `target`, `minValue`, `maxValue`, `isInformational`). -/
structure TutorialStep where
  id : ℕ
  target : ParamKey
  minValue : Option ℝ
  maxValue : Option ℝ
  isInformational : Bool

/-- The `tutorialSteps` array. -/
noncomputable def tutorialSteps : List TutorialStep :=
  [ { id := 1, target := .airspeed, minValue := some 250, maxValue := none,
      isInformational := false },
    { id := 2, target := .angleOfAttack, minValue := some 8, maxValue := some 12,
      isInformational := false },
    { id := 3, target := .angleOfAttack, minValue := some 16, maxValue := none,
      isInformational := false },
    { id := 4, target := .altitude, minValue := some 8000, maxValue := none,
      isInformational := false },
    { id := 5, target := .throttle, minValue := none, maxValue := none,
      isInformational := true } ]

/-- The component state: the `useState` cells of `FlightSimulator` that carry
simulation, tutorial or feedback logic. -/
structure SimState where
  isRunning : Bool
  selectedAircraft : AircraftId
  parameters : FlightParameters
  forces : Forces
  position : Position2D
  velocity : Velocity2D
  isStalling : Bool
  currentTutorial : ℕ
  tutorialActive : Bool
  completedSteps : List ℕ
  showHints : Bool
  parameterFeedback : String
  currentTips : List String
  showAdvancedMetrics : Bool
  selectedModel : String
  voiceEnabled : Bool

/-- `1.225 * Math.exp(-parameters.altitude / 8400)`. -/
noncomputable def airDensity (p : FlightParameters) : ℝ :=
  1.225 * Real.exp (-p.altitude / 8400)

/-- `parameters.airspeed / 3.6` (km/h to m/s). -/
noncomputable def velocityMs (p : FlightParameters) : ℝ :=
  p.airspeed / 3.6

/-- `const criticalAngle = 15`. -/
noncomputable def criticalAngle : ℝ := 15

/-- `0.5 * airDensity * velocityMs * velocityMs`. -/
noncomputable def dynamicPressure (p : FlightParameters) : ℝ :=
  0.5 * airDensity p * velocityMs p * velocityMs p

/-- The lift before the stall branch:
`dynamicPressure * parameters.wingArea * parameters.liftCoefficient`. -/
noncomputable def liftNoStall (p : FlightParameters) : ℝ :=
  dynamicPressure p * p.wingArea * p.liftCoefficient

/-- The body of the physics `useEffect`: forces from parameters. -/
noncomputable def computeForces (p : FlightParameters) : Forces :=
  let stalling := p.angleOfAttack > criticalAngle
  let lift0 := dynamicPressure p * p.wingArea * p.liftCoefficient
  let lift := if stalling then lift0 * 0.3 else lift0
  let drag := dynamicPressure p * p.wingArea * p.dragCoefficient
  let thrust := (p.throttle / 100) * 120000
  let weight := p.weight * 9.81
  { lift := lift, drag := drag, thrust := thrust, weight := weight }

/-- The physics `useEffect` as a state transformer: sets `isStalling`
and `forces` from the current parameters. -/
noncomputable def physicsEffect (s : SimState) : SimState :=
  { s with
    isStalling := decide (s.parameters.angleOfAttack > criticalAngle),
    forces := computeForces s.parameters }

/-- Advisory for `parameters.airspeed < 150`. -/
def feedbackLowSpeed : String :=
  "⚠️ Low airspeed - insufficient lift for most aircraft."

/-- Advisory for `parameters.airspeed > 400`. -/
def feedbackHighSpeed : String :=
  "⚡ High speed flight - drag increases significantly."

/-- Advisory for `12 < angleOfAttack <= 15`. -/
def feedbackNearStall : String :=
  "⚠️ Approaching critical angle of attack. Stall warning!"

/-- Advisory for `angleOfAttack > 15`. -/
def feedbackStall : String :=
  "🚨 STALL CONDITION - Airflow separated from wing surface!"

/-- Advisory for `angleOfAttack < 0`. -/
def feedbackNegativeAoa : String :=
  "📉 Negative angle of attack - aircraft will descend rapidly."

/-- Advisory for `altitude > 8000`. -/
def feedbackHighAltitude : String :=
  "🏔️ High altitude - reduced air density affects performance."

/-- Advisory for the balanced-forces condition. -/
def feedbackBalanced : String :=
  "✅ Excellent! Forces are well balanced for steady flight."

/-- The balanced-forces condition of the feedback `useEffect`:
`thrustDragDiff < 5000 && liftWeightDiff < 10000`. -/
def balancedForces (f : Forces) : Prop :=
  |f.thrust - f.drag| < 5000 ∧ |f.lift - f.weight| < 10000

/-- The advisory string computed by the feedback `useEffect`: `feedback`
starts empty and each matching check overwrites it in program order
(speed group, angle-of-attack group, altitude, balanced forces). -/
noncomputable def feedbackString (p : FlightParameters) (f : Forces) : String :=
  let fb0 : String := ""
  let fb1 := if p.airspeed < 150 then feedbackLowSpeed
    else if p.airspeed > 400 then feedbackHighSpeed
    else fb0
  let fb2 := if p.angleOfAttack > 12 ∧ p.angleOfAttack ≤ 15 then feedbackNearStall
    else if p.angleOfAttack > 15 then feedbackStall
    else if p.angleOfAttack < 0 then feedbackNegativeAoa
    else fb1
  let fb3 := if p.altitude > 8000 then feedbackHighAltitude
    else fb2
  let thrustDragDiff := |f.thrust - f.drag|
  let liftWeightDiff := |f.lift - f.weight|
  if thrustDragDiff < 5000 ∧ liftWeightDiff < 10000 then feedbackBalanced
  else fb3

/-- The tip list accumulated by the feedback `useEffect` (`tips.push`
calls of every matching branch, in program order). -/
noncomputable def currentTipsOf (p : FlightParameters) (f : Forces) : List String :=
  (if p.airspeed < 150 then
      [ "Increase speed or angle of attack to generate more lift",
        "Formula: Lift = ½ × air density × velocity² × wing area × lift coefficient" ]
    else if p.airspeed > 400 then
      [ "Drag increases with velocity squared - doubling speed quadruples drag",
        "Consider reducing throttle to maintain efficient flight" ]
    else [])
  ++ (if p.angleOfAttack > 12 ∧ p.angleOfAttack ≤ 15 then
      [ "Most aircraft stall between 15-18° angle of attack",
        "Reduce angle of attack or increase airspeed to maintain safe flight" ]
    else if p.angleOfAttack > 15 then
      [ "Immediately reduce angle of attack and increase throttle",
        "In real flight, push the nose down to recover from stall" ]
    else if p.angleOfAttack < 0 then
      [ "Negative angles create downward lift - useful for aerobatic maneuvers" ]
    else [])
  ++ (if p.altitude > 8000 then
      [ "Air density at 10,000m is about 26% of sea level density",
        "Higher speeds or larger angles needed to maintain same lift" ]
    else [])
  ++ (if |f.thrust - f.drag| < 5000 ∧ |f.lift - f.weight| < 10000 then
      [ "This is ideal for cruise flight - minimal energy waste",
        "Small adjustments maintain altitude and speed efficiently" ]
    else [])

/-- The feedback `useEffect` as a state transformer. -/
noncomputable def feedbackEffect (s : SimState) : SimState :=
  { s with
    parameterFeedback := feedbackString s.parameters s.forces,
    currentTips := currentTipsOf s.parameters s.forces }

/-- The completion test of the tutorial `useEffect` on the optional
thresholds: both present means `minValue <= value <= maxValue`, only
`minValue` present means `value >= minValue`, otherwise not completed
(mirrors the JS truthiness chain; no step has threshold `0`). -/
def stepCompleted : Option ℝ → Option ℝ → ℝ → Prop
  | some mn, some mx, v => mn ≤ v ∧ v ≤ mx
  | some mn, none, v => mn ≤ v
  | none, _, _ => False

noncomputable instance stepCompletedDec :
    ∀ (mn mx : Option ℝ) (v : ℝ), Decidable (stepCompleted mn mx v)
  | some mn, some mx, v => inferInstanceAs (Decidable (mn ≤ v ∧ v ≤ mx))
  | some mn, none, v => inferInstanceAs (Decidable (mn ≤ v))
  | none, some _, _ => inferInstanceAs (Decidable False)
  | none, none, _ => inferInstanceAs (Decidable False)

/-- The tutorial `useEffect`: while the tutorial is active and the current
step exists and is not informational, a newly satisfied target range appends
the step id to `completedSteps` and (via the 2-second timeout) advances
`currentTutorial` when a next step exists. -/
noncomputable def tutorialEffect (s : SimState) : SimState :=
  if s.tutorialActive = true then
    match tutorialSteps.get? s.currentTutorial with
    | none => s
    | some step =>
      if step.isInformational = true then s
      else
        let currentValue := getParam s.parameters step.target
        if stepCompleted step.minValue step.maxValue currentValue
            ∧ step.id ∉ s.completedSteps then
          { s with
            completedSteps := s.completedSteps ++ [step.id],
            currentTutorial :=
              if s.currentTutorial < tutorialSteps.length - 1 then
                s.currentTutorial + 1
              else s.currentTutorial }
        else s
  else s

/-- `resetSimulation`. -/
def resetSimulation (s : SimState) : SimState :=
  { s with
    isRunning := false,
    position := { x := 400, y := 300, rotation := 0 },
    velocity := { x := 0, y := 0, angular := 0 } }

/-- `updateParameter` lifted to the component state. -/
def updateParameter (k : ParamKey) (v : ℝ) (s : SimState) : SimState :=
  { s with parameters := setParam k v s.parameters }

/-- `selectAircraft`: stores the id, copies the preset weight and wing
area, applies the hot-air-balloon special parameters, and stores the
preset model path. -/
noncomputable def selectAircraft (id : AircraftId) (s : SimState) : SimState :=
  let preset := aircraftPresets id
  let s1 := { s with selectedAircraft := id }
  let s2 := updateParameter .wingArea preset.wingArea
    (updateParameter .weight preset.weight s1)
  let s3 := if id = AircraftId.hotAirBalloon then
      updateParameter .throttle 50
        (updateParameter .angleOfAttack 0
          (updateParameter .airspeed 30 s2))
    else s2
  { s3 with selectedModel := preset.modelPath }

/-- `startTutorial`. -/
def startTutorial (s : SimState) : SimState :=
  resetSimulation
    { s with
      tutorialActive := true,
      currentTutorial := 0,
      completedSteps := ([] : List ℕ) }

/-- The Previous button: `setCurrentTutorial(Math.max(0, currentTutorial - 1))`. -/
def tutorialPrevStep (s : SimState) : SimState :=
  { s with currentTutorial := s.currentTutorial - 1 }

/-- The Next / Finish button. -/
noncomputable def tutorialNextStep (s : SimState) : SimState :=
  if s.currentTutorial < tutorialSteps.length - 1 then
    { s with currentTutorial := s.currentTutorial + 1 }
  else
    { s with tutorialActive := false }

/-- The Play / Pause button: `setIsRunning(!isRunning)`. -/
def toggleRunning (s : SimState) : SimState :=
  { s with isRunning := !s.isRunning }

/-- One body of the `setInterval` callback of the animation `useEffect`:
explicit-Euler integration of velocity and position, with the position
clamped into the canvas. -/
noncomputable def integrate (s : SimState) : SimState :=
  let dt : ℝ := 0.1
  let mass := s.parameters.weight
  let netVertical := s.forces.lift - s.forces.weight
  let netHorizontal := s.forces.thrust - s.forces.drag
  let accelX := netHorizontal / mass
  let accelY := -netVertical / mass
  let newVelX := s.velocity.x + accelX * dt
  let newVelY := s.velocity.y + accelY * dt
  let newX := max 50 (min 750 (s.position.x + newVelX * dt * 100))
  let newY := max 50 (min 550 (s.position.y + newVelY * dt * 100))
  let newRotation := s.parameters.angleOfAttack * (Real.pi / 180)
  { s with
    position := { x := newX, y := newY, rotation := newRotation },
    velocity := { x := newVelX, y := newVelY, angular := 0 } }

/-- One scheduled animation tick: the animation `useEffect` returns
immediately (no interval is installed) unless `isRunning` is set. -/
noncomputable def animTick (s : SimState) : SimState :=
  if s.isRunning = true then integrate s else s

/-- The initial component state (the `useState` initial values). -/
noncomputable def initialState : SimState :=
  { isRunning := false,
    selectedAircraft := .boeing737,
    parameters :=
      { airspeed := 250, angleOfAttack := 5, altitude := 3000, throttle := 75,
        weight := 41400, wingArea := 125, liftCoefficient := 1.2,
        dragCoefficient := 0.025 },
    forces := { lift := 0, drag := 0, thrust := 0, weight := 0 },
    position := { x := 400, y := 300, rotation := 0 },
    velocity := { x := 0, y := 0, angular := 0 },
    isStalling := false,
    currentTutorial := 0,
    tutorialActive := false,
    completedSteps := [],
    showHints := true,
    parameterFeedback := "",
    currentTips := [],
    showAdvancedMetrics := false,
    selectedModel := "/3d/boeing_737_american_airlines.glb",
    voiceEnabled := false }

/-- The operations of the component: event handlers and the logic-bearing
effects. -/
inductive Op
  | toggleRunningOp
  | resetSimulationOp
  | sliderChange (k : ParamKey) (v : ℝ)
  | selectAircraftOp (id : AircraftId)
  | startTutorialOp
  | tutorialPrevOp
  | tutorialNextOp
  | toggleHintsOp
  | toggleVoiceOp
  | toggleAdvancedMetricsOp
  | physicsEffectOp
  | feedbackEffectOp
  | tutorialEffectOp
  | animTickOp

/-- Apply one operation to the component state. -/
noncomputable def applyOp : Op → SimState → SimState
  | .toggleRunningOp, s => toggleRunning s
  | .resetSimulationOp, s => resetSimulation s
  | .sliderChange k v, s => updateParameter k v s
  | .selectAircraftOp id, s => selectAircraft id s
  | .startTutorialOp, s => startTutorial s
  | .tutorialPrevOp, s => tutorialPrevStep s
  | .tutorialNextOp, s => tutorialNextStep s
  | .toggleHintsOp, s => { s with showHints := !s.showHints }
  | .toggleVoiceOp, s => { s with voiceEnabled := !s.voiceEnabled }
  | .toggleAdvancedMetricsOp, s => { s with showAdvancedMetrics := !s.showAdvancedMetrics }
  | .physicsEffectOp, s => physicsEffect s
  | .feedbackEffectOp, s => feedbackEffect s
  | .tutorialEffectOp, s => tutorialEffect s
  | .animTickOp, s => animTick s

/-- The states the component can reach from its initial state. -/
inductive Reachable : SimState → Prop
  | init : Reachable initialState
  | step (s : SimState) (op : Op) : Reachable s → Reachable (applyOp op s)

/-- Claim C1: the stall flag is true iff `angleOfAttack > 15`, and under
stall the computed lift is exactly `0.3` times the non-stall lift for the
same parameters; in particular the initial parameters (airspeed 250, angle
of attack 5, altitude 3000) give `stall = false`, and changing only the
angle of attack to 20 gives `stall = true` with lift equal to 30% of the
non-stall value. -/
theorem C1_stall_iff_and_lift_drop :
    (∀ s : SimState, (physicsEffect s).isStalling = true ↔ s.parameters.angleOfAttack > 15)
    ∧ (∀ p : FlightParameters, p.angleOfAttack > 15 →
        (computeForces p).lift = 0.3 * liftNoStall p)
    ∧ (physicsEffect initialState).isStalling = false
    ∧ (physicsEffect (updateParameter .angleOfAttack 20 initialState)).isStalling = true
    ∧ (computeForces (setParam .angleOfAttack 20 initialState.parameters)).lift
        = 0.3 * liftNoStall (setParam .angleOfAttack 20 initialState.parameters) := by
  refine ⟨?_, ?_, ?_, ?_, ?_⟩
  · intro s
    simp [physicsEffect, criticalAngle]
  · intro p hp
    simp only [computeForces, liftNoStall, criticalAngle]
    rw [if_pos hp]
    ring
  · norm_num [physicsEffect, initialState, criticalAngle]
  · norm_num [physicsEffect, updateParameter, setParam, initialState, criticalAngle]
  · have h20 : (setParam .angleOfAttack 20 initialState.parameters).angleOfAttack > 15 := by
      norm_num [setParam, initialState]
    simp only [computeForces, liftNoStall, criticalAngle]
    rw [if_pos h20]
    ring

/-- Witness for C1 at the concrete input of the claim (angle of attack 20). -/
theorem C1_witness :
    (computeForces (setParam .angleOfAttack 20 initialState.parameters)).lift
      = 0.3 * liftNoStall (setParam .angleOfAttack 20 initialState.parameters) :=
  C1_stall_iff_and_lift_drop.2.1 _ (by norm_num [setParam, initialState])

/-- Claim C2: for every `FlightParameters` value the physics evaluator uses
exactly the documented formulas: exponential air density, km/h to m/s
conversion, dynamic pressure as half density times velocity squared, lift
and drag from dynamic pressure, wing area and the respective coefficient
(lift times 0.3 under stall), thrust linear in throttle against the fixed
maximum of 120000 N, and weight as mass times 9.81. -/
theorem C2_physics_formulas (p : FlightParameters) :
    airDensity p = 1.225 * Real.exp (-p.altitude / 8400)
    ∧ velocityMs p = p.airspeed / 3.6
    ∧ dynamicPressure p = 0.5 * airDensity p * velocityMs p ^ 2
    ∧ (computeForces p).lift =
        (if p.angleOfAttack > 15 then
          0.3 * (dynamicPressure p * p.wingArea * p.liftCoefficient)
        else dynamicPressure p * p.wingArea * p.liftCoefficient)
    ∧ (computeForces p).drag = dynamicPressure p * p.wingArea * p.dragCoefficient
    ∧ (computeForces p).thrust = (p.throttle / 100) * 120000
    ∧ (computeForces p).weight = p.weight * 9.81 := by
  refine ⟨rfl, rfl, by unfold dynamicPressure; ring, ?_, rfl, rfl, rfl⟩
  simp only [computeForces, criticalAngle]
  split_ifs with h
  · ring
  · rfl

/-- Claim C7: the force computation is a deterministic pure function of the
parameters: equal parameters give equal forces, re-running the physics
effect does not change the state further, and the resulting forces and
stall flag depend on nothing in the state but the parameters. -/
theorem C7_physics_pure :
    (∀ p q : FlightParameters, p = q → computeForces p = computeForces q)
    ∧ (∀ s : SimState, physicsEffect (physicsEffect s) = physicsEffect s)
    ∧ (∀ s t : SimState, s.parameters = t.parameters →
        (physicsEffect s).forces = (physicsEffect t).forces
        ∧ (physicsEffect s).isStalling = (physicsEffect t).isStalling) := by
  refine ⟨fun p q h => by rw [h], fun s => rfl, fun s t h => ?_⟩
  constructor <;> simp [physicsEffect, h]

/-- Witness for C7: two states equal in parameters but different elsewhere
get identical forces and stall flag. -/
theorem C7_witness :
    computeForces initialState.parameters = computeForces initialState.parameters
    ∧ ((physicsEffect { initialState with isRunning := true }).forces
          = (physicsEffect initialState).forces
        ∧ (physicsEffect { initialState with isRunning := true }).isStalling
          = (physicsEffect initialState).isStalling) :=
  ⟨C7_physics_pure.1 _ _ rfl, C7_physics_pure.2.2 _ _ rfl⟩

/-- Claim C8: in every reachable state with the running flag cleared, a
scheduled animation tick performs no integration update at all: the state
is left unchanged. -/
theorem C8_no_tick_when_stopped (s : SimState) (_hr : Reachable s)
    (h : s.isRunning = false) : animTick s = s := by
  simp [animTick, h]

/-- Witness for C8: the initial state is reachable and not running, and a
tick leaves it unchanged. -/
theorem C8_witness : animTick initialState = initialState :=
  C8_no_tick_when_stopped initialState Reachable.init rfl

/-- Claim C9: `resetSimulation` only clears the running flag and resets
position and velocity; parameters, forces, stall flag, tutorial state,
aircraft selection and every other state cell are unchanged. -/
theorem C9_reset_frame (s : SimState) :
    (resetSimulation s).isRunning = false
    ∧ (resetSimulation s).position = { x := 400, y := 300, rotation := 0 }
    ∧ (resetSimulation s).velocity = { x := 0, y := 0, angular := 0 }
    ∧ (resetSimulation s).parameters = s.parameters
    ∧ (resetSimulation s).forces = s.forces
    ∧ (resetSimulation s).isStalling = s.isStalling
    ∧ (resetSimulation s).tutorialActive = s.tutorialActive
    ∧ (resetSimulation s).currentTutorial = s.currentTutorial
    ∧ (resetSimulation s).completedSteps = s.completedSteps
    ∧ (resetSimulation s).selectedAircraft = s.selectedAircraft
    ∧ (resetSimulation s).selectedModel = s.selectedModel
    ∧ (resetSimulation s).parameterFeedback = s.parameterFeedback
    ∧ (resetSimulation s).currentTips = s.currentTips
    ∧ (resetSimulation s).showHints = s.showHints
    ∧ (resetSimulation s).showAdvancedMetrics = s.showAdvancedMetrics
    ∧ (resetSimulation s).voiceEnabled = s.voiceEnabled :=
  ⟨rfl, rfl, rfl, rfl, rfl, rfl, rfl, rfl, rfl, rfl, rfl, rfl, rfl, rfl, rfl, rfl⟩

/-- Claim C10: after an animation integration tick in any reachable running
state, the position is clamped into the canvas interior, whatever the
forces and velocities are: `x` lies in `[50, 750]` and `y` in `[50, 550]`. -/
theorem C10_position_clamped (s : SimState) (_hr : Reachable s)
    (hrun : s.isRunning = true) :
    50 ≤ (animTick s).position.x ∧ (animTick s).position.x ≤ 750
    ∧ 50 ≤ (animTick s).position.y ∧ (animTick s).position.y ≤ 550 := by
  unfold animTick
  rw [if_pos hrun]
  show 50 ≤ max 50 _ ∧ max 50 _ ≤ 750 ∧ 50 ≤ max 50 _ ∧ max 50 _ ≤ 550
  exact ⟨le_max_left _ _, max_le (by norm_num) (min_le_left _ _),
    le_max_left _ _, max_le (by norm_num) (min_le_left _ _)⟩

/-- Witness for C10: starting the simulation from the initial state and
ticking once keeps the position inside the canvas. -/
theorem C10_witness :
    50 ≤ (animTick (applyOp Op.toggleRunningOp initialState)).position.x
    ∧ (animTick (applyOp Op.toggleRunningOp initialState)).position.x ≤ 750
    ∧ 50 ≤ (animTick (applyOp Op.toggleRunningOp initialState)).position.y
    ∧ (animTick (applyOp Op.toggleRunningOp initialState)).position.y ≤ 550 :=
  C10_position_clamped _ (Reachable.step initialState Op.toggleRunningOp Reachable.init) rfl

/-- A concrete balanced `Forces` sample: thrust close to drag and lift
close to weight. -/
noncomputable def forcesBalancedSample : Forces :=
  { lift := 406000, drag := 48000, thrust := 50000, weight := 406000 }

/-- A concrete unbalanced `Forces` sample: thrust far from drag. -/
noncomputable def forcesUnbalancedSample : Forces :=
  { lift := 0, drag := 0, thrust := 100000, weight := 0 }

/-- Claim C6: the feedback classifier checks run in the fixed program order
low speed, high speed, near-stall, stall, negative angle, high altitude,
balanced forces, and a later matching check overwrites the advisory of an
earlier one: balanced forces overwrites everything, high altitude
overwrites the stall advisory (and every earlier one), and an early
advisory such as low speed survives only when no later check matches. -/
theorem C6_feedback_priority :
    (∀ (p : FlightParameters) (f : Forces), balancedForces f →
        feedbackString p f = feedbackBalanced)
    ∧ (∀ (p : FlightParameters) (f : Forces), ¬ balancedForces f →
        p.altitude > 8000 → feedbackString p f = feedbackHighAltitude)
    ∧ (∀ (p : FlightParameters) (f : Forces), ¬ balancedForces f →
        ¬ p.altitude > 8000 → p.angleOfAttack > 15 →
        feedbackString p f = feedbackStall)
    ∧ (∀ (p : FlightParameters) (f : Forces), ¬ balancedForces f →
        ¬ p.altitude > 8000 → p.angleOfAttack > 12 → p.angleOfAttack ≤ 15 →
        feedbackString p f = feedbackNearStall)
    ∧ (∀ (p : FlightParameters) (f : Forces), ¬ balancedForces f →
        ¬ p.altitude > 8000 → ¬ p.angleOfAttack > 12 → ¬ p.angleOfAttack < 0 →
        p.airspeed < 150 → feedbackString p f = feedbackLowSpeed) := by
  refine ⟨?_, ?_, ?_, ?_, ?_⟩
  · intro p f hb
    simp only [balancedForces] at hb
    simp only [feedbackString]
    rw [if_pos hb]
  · intro p f hb halt
    simp only [balancedForces] at hb
    simp only [feedbackString]
    rw [if_neg hb, if_pos halt]
  · intro p f hb halt h15
    simp only [balancedForces] at hb
    simp only [feedbackString]
    rw [if_neg hb, if_neg halt, if_neg (by rintro ⟨-, h⟩; linarith), if_pos h15]
  · intro p f hb halt h12 h15
    simp only [balancedForces] at hb
    simp only [feedbackString]
    rw [if_neg hb, if_neg halt, if_pos ⟨h12, h15⟩]
  · intro p f hb halt h12 hneg hlow
    simp only [balancedForces] at hb
    simp only [feedbackString]
    rw [if_neg hb, if_neg halt, if_neg (by rintro ⟨h, -⟩; exact h12 h),
      if_neg (by intro h; exact h12 (by linarith)), if_neg hneg, if_pos hlow]

/-- Witness for C6: balanced forces overwrite every advisory; with
unbalanced forces a high altitude overwrites the stall advisory. -/
theorem C6_witness :
    feedbackString initialState.parameters forcesBalancedSample = feedbackBalanced
    ∧ feedbackString
        (setParam .altitude 9000 (setParam .angleOfAttack 20 initialState.parameters))
        forcesUnbalancedSample = feedbackHighAltitude :=
  ⟨C6_feedback_priority.1 _ _
      (by norm_num [balancedForces, forcesBalancedSample, abs_sub_lt_iff]),
   C6_feedback_priority.2.1 _ _
      (by norm_num [balancedForces, forcesUnbalancedSample, abs_sub_lt_iff])
      (by norm_num [setParam, initialState])⟩

/-- Counterexample to claim C4 as stated: selecting the hot-air-balloon
preset sets the airspeed to 30 km/h, below the declared lower bound of 50,
so not every parameter-updating operation keeps airspeed in `[50, 500]`. -/
theorem C4_counterexample :
    (selectAircraft AircraftId.hotAirBalloon initialState).parameters.airspeed = 30
    ∧ ¬ (50 ≤ (selectAircraft AircraftId.hotAirBalloon initialState).parameters.airspeed) := by
  have h : (selectAircraft AircraftId.hotAirBalloon initialState).parameters.airspeed = 30 := by
    simp [selectAircraft, updateParameter, setParam, aircraftPresets, initialState]
  refine ⟨h, ?_⟩
  rw [h]
  norm_num

/-- Claim C4, amended: an airspeed slider change (whose widget clamps the
value to `[50, 500]`) always leaves airspeed in `[50, 500]`, and aircraft
selection leaves airspeed unchanged — except for the hot-air-balloon
preset, which sets airspeed to 30, outside the declared range. -/
theorem C4_airspeed_range_amended :
    (∀ (s : SimState) (v : ℝ), 50 ≤ v → v ≤ 500 →
      50 ≤ (applyOp (Op.sliderChange ParamKey.airspeed v) s).parameters.airspeed
      ∧ (applyOp (Op.sliderChange ParamKey.airspeed v) s).parameters.airspeed ≤ 500)
    ∧ (∀ (s : SimState) (id : AircraftId), id ≠ AircraftId.hotAirBalloon →
        (selectAircraft id s).parameters.airspeed = s.parameters.airspeed)
    ∧ (∀ s : SimState,
        (selectAircraft AircraftId.hotAirBalloon s).parameters.airspeed = 30) := by
  refine ⟨?_, ?_, ?_⟩
  · intro s v h1 h2
    exact ⟨h1, h2⟩
  · intro s id hid
    cases id <;>
      simp [selectAircraft, updateParameter, setParam, aircraftPresets]
    exact absurd rfl hid
  · intro s
    simp [selectAircraft, updateParameter, setParam, aircraftPresets]

/-- Witness for the amended C4: a concrete in-range slider change keeps
airspeed in range, and selecting the F-16 preset leaves it untouched. -/
theorem C4_witness :
    (50 ≤ (applyOp (Op.sliderChange ParamKey.airspeed 100) initialState).parameters.airspeed
      ∧ (applyOp (Op.sliderChange ParamKey.airspeed 100) initialState).parameters.airspeed ≤ 500)
    ∧ (selectAircraft AircraftId.f16 initialState).parameters.airspeed
        = initialState.parameters.airspeed :=
  ⟨C4_airspeed_range_amended.1 initialState 100 (by norm_num) (by norm_num),
   C4_airspeed_range_amended.2.1 initialState AircraftId.f16 (by decide)⟩

/-- Evaluation of the tutorial effect when the active, non-informational
current step is newly completed: the id is appended and the step index
advances when a next step exists. -/
theorem tutorialEffect_eq_of_completed (s : SimState) (step : TutorialStep)
    (hact : s.tutorialActive = true)
    (hstep : tutorialSteps.get? s.currentTutorial = some step)
    (hinf : step.isInformational = false)
    (hc : stepCompleted step.minValue step.maxValue (getParam s.parameters step.target))
    (hnew : step.id ∉ s.completedSteps) :
    tutorialEffect s =
      { s with
        completedSteps := s.completedSteps ++ [step.id],
        currentTutorial :=
          if s.currentTutorial < tutorialSteps.length - 1 then s.currentTutorial + 1
          else s.currentTutorial } := by
  unfold tutorialEffect
  rw [if_pos hact, hstep]
  dsimp only
  rw [if_neg (by rw [hinf]; simp), if_pos ⟨hc, hnew⟩]

/-- Evaluation of the tutorial effect when the active current step is
informational: the state is unchanged. -/
theorem tutorialEffect_eq_informational (s : SimState) (step : TutorialStep)
    (hact : s.tutorialActive = true)
    (hstep : tutorialSteps.get? s.currentTutorial = some step)
    (hinf : step.isInformational = true) :
    tutorialEffect s = s := by
  unfold tutorialEffect
  rw [if_pos hact, hstep]
  dsimp only
  rw [if_pos hinf]

/-- Evaluation of the tutorial effect when the active, non-informational
current step is not newly completed (range not met, or already recorded):
the state is unchanged. -/
theorem tutorialEffect_eq_of_not_new (s : SimState) (step : TutorialStep)
    (hact : s.tutorialActive = true)
    (hstep : tutorialSteps.get? s.currentTutorial = some step)
    (hinf : step.isInformational = false)
    (hnc : ¬ (stepCompleted step.minValue step.maxValue
        (getParam s.parameters step.target) ∧ step.id ∉ s.completedSteps)) :
    tutorialEffect s = s := by
  unfold tutorialEffect
  rw [if_pos hact, hstep]
  dsimp only
  rw [if_neg (by rw [hinf]; simp), if_neg hnc]

/-- The tutorial effect never removes a recorded step id. -/
theorem tutorialEffect_completedSteps_mono (s : SimState) (i : ℕ)
    (hi : i ∈ s.completedSteps) : i ∈ (tutorialEffect s).completedSteps := by
  unfold tutorialEffect
  split
  · split
    · exact hi
    · split
      · exact hi
      · dsimp only
        split
        · exact List.mem_append_left _ hi
        · exact hi
  · exact hi

/-- Aircraft selection never touches the completed-step set. -/
theorem selectAircraft_completedSteps (id : AircraftId) (s : SimState) :
    (selectAircraft id s).completedSteps = s.completedSteps := by
  unfold selectAircraft updateParameter
  split <;> rfl

/-- Counterexample to claim C3 as stated: after the first tutorial step is
recorded as completed, pressing the tutorial start button again removes the
recorded id 1 from `completedSteps`. -/
theorem C3_counterexample :
    1 ∈ (tutorialEffect (startTutorial initialState)).completedSteps
    ∧ 1 ∉ (startTutorial (tutorialEffect (startTutorial initialState))).completedSteps := by
  have heq := tutorialEffect_eq_of_completed (startTutorial initialState)
    { id := 1, target := .airspeed, minValue := some 250, maxValue := none,
      isInformational := false }
    rfl rfl rfl le_rfl (List.not_mem_nil 1)
  constructor
  · rw [heq]
    simp [startTutorial, resetSimulation, initialState]
  · simp [startTutorial, resetSimulation]

/-- Claim C3, amended: within a session, no operation of the component
other than `startTutorial` ever removes an id from `completedSteps` once it
has been recorded; `startTutorial` begins a new tutorial run by resetting
the completed-step set to empty. -/
theorem C3_completedSteps_mono_amended :
    (∀ (s : SimState) (op : Op), op ≠ Op.startTutorialOp →
      ∀ i : ℕ, i ∈ s.completedSteps → i ∈ (applyOp op s).completedSteps)
    ∧ (∀ s : SimState, (applyOp Op.startTutorialOp s).completedSteps = []) := by
  constructor
  · intro s op hop i hi
    cases op with
    | toggleRunningOp => exact hi
    | resetSimulationOp => exact hi
    | sliderChange k v => exact hi
    | selectAircraftOp id =>
        show i ∈ (selectAircraft id s).completedSteps
        rw [selectAircraft_completedSteps]
        exact hi
    | startTutorialOp => exact absurd rfl hop
    | tutorialPrevOp => exact hi
    | tutorialNextOp =>
        show i ∈ (tutorialNextStep s).completedSteps
        unfold tutorialNextStep
        split <;> exact hi
    | toggleHintsOp => exact hi
    | toggleVoiceOp => exact hi
    | toggleAdvancedMetricsOp => exact hi
    | physicsEffectOp => exact hi
    | feedbackEffectOp => exact hi
    | tutorialEffectOp => exact tutorialEffect_completedSteps_mono s i hi
    | animTickOp =>
        show i ∈ (animTick s).completedSteps
        unfold animTick
        split <;> exact hi
  · intro s
    rfl

/-- Witness for the amended C3: a recorded id survives a concrete
non-`startTutorial` operation. -/
theorem C3_witness :
    7 ∈ (applyOp Op.resetSimulationOp
      { initialState with completedSteps := [7] }).completedSteps :=
  C3_completedSteps_mono_amended.1 { initialState with completedSteps := [7] }
    Op.resetSimulationOp (fun h => Op.noConfusion h) 7 (List.Mem.head _)

/-- Claim C5: while the tutorial is active on a non-informational step, the
step id is recorded exactly when it was already recorded or the tracked
parameter is inside the declared range (both thresholds: closed interval;
only a minimum: at-least); recording is sticky (nothing is revoked) and a
new completion advances to the next step when one exists; an informational
step never auto-completes and never advances. -/
theorem C5_tutorial_completion :
    (∀ (s : SimState) (step : TutorialStep),
      s.tutorialActive = true →
      tutorialSteps.get? s.currentTutorial = some step →
      step.isInformational = false →
      ((step.id ∈ (tutorialEffect s).completedSteps ↔
          step.id ∈ s.completedSteps
          ∨ stepCompleted step.minValue step.maxValue (getParam s.parameters step.target))
        ∧ (∀ i : ℕ, i ∈ s.completedSteps → i ∈ (tutorialEffect s).completedSteps)
        ∧ (stepCompleted step.minValue step.maxValue (getParam s.parameters step.target) →
            step.id ∉ s.completedSteps →
            s.currentTutorial < tutorialSteps.length - 1 →
            (tutorialEffect s).currentTutorial = s.currentTutorial + 1)))
    ∧ (∀ (mn mx v : ℝ),
        (stepCompleted (some mn) (some mx) v ↔ mn ≤ v ∧ v ≤ mx)
        ∧ (stepCompleted (some mn) none v ↔ mn ≤ v))
    ∧ (∀ (s : SimState) (step : TutorialStep),
        s.tutorialActive = true →
        tutorialSteps.get? s.currentTutorial = some step →
        step.isInformational = true →
        tutorialEffect s = s) := by
  refine ⟨?_, fun mn mx v => ⟨Iff.rfl, Iff.rfl⟩, tutorialEffect_eq_informational⟩
  intro s step hact hstep hinf
  by_cases hc : stepCompleted step.minValue step.maxValue (getParam s.parameters step.target)
  · by_cases hmem : step.id ∈ s.completedSteps
    · rw [tutorialEffect_eq_of_not_new s step hact hstep hinf (by tauto)]
      exact ⟨by tauto, fun i hi => hi, fun _ hnot => absurd hmem hnot⟩
    · rw [tutorialEffect_eq_of_completed s step hact hstep hinf hc hmem]
      refine ⟨?_, fun i hi => List.mem_append_left _ hi, fun _ _ hlt => ?_⟩
      · simp only [List.mem_append, List.mem_singleton]
        tauto
      · show (if s.currentTutorial < tutorialSteps.length - 1 then s.currentTutorial + 1
          else s.currentTutorial) = s.currentTutorial + 1
        rw [if_pos hlt]
  · rw [tutorialEffect_eq_of_not_new s step hact hstep hinf (by tauto)]
    exact ⟨by tauto, fun i hi => hi, fun hc' => absurd hc' hc⟩

/-- Witness for C5 at the first tutorial step right after starting the
tutorial (airspeed target, minimum 250). -/
theorem C5_witness :
    1 ∈ (tutorialEffect (startTutorial initialState)).completedSteps ↔
      1 ∈ (startTutorial initialState).completedSteps
      ∨ stepCompleted (some 250) none
          (getParam (startTutorial initialState).parameters ParamKey.airspeed) :=
  (C5_tutorial_completion.1 (startTutorial initialState)
    { id := 1, target := .airspeed, minValue := some 250, maxValue := none,
      isInformational := false } rfl rfl rfl).1

end FlightSim
